import Mathlib

/-!
Verification of the RabbitMQ RPC bridge (`RabbitMQService`) and the order
workflow (`OrderService`) of the order-service repository.

The embedding follows the TypeScript source.  JavaScript runs callbacks on a
single-threaded event loop, so each callback body (the `setTimeout` callback,
the `channel.consume` callback, the `catch` block) executes atomically; we
model the pending phase of one `publishWithResponse` call as a state machine
whose steps are exactly those callback bodies, driven by an arbitrary list of
runtime events.
-/

set_option autoImplicit false

namespace OrderService

/-- Opaque message payload (the JSON-decoded body of a message). -/
abbrev Payload := String

/-- Name of the ephemeral reply queue derived from a correlation id,
from `const replyTo = ` followed by the template string
`response.` + correlationId (part_002 line 127). -/
def replyQueueName (correlationId : String) : String :=
  "response." ++ correlationId

/-! ### The pending phase of one `publishWithResponse` call

After a successful setup (queue asserted, timer started, registry entry set,
consumer registered, request published) the call is affected by three kinds of
runtime events: its deadline timer firing, a message delivered on its reply
queue, and loss of the broker connection. -/

/-- Runtime events that can reach one outstanding call. -/
inductive CallEvent where
  /-- The `setTimeout` callback fires (part_002 lines 137-143).  The runtime
  fires a timer at most once and never after `clearTimeout`. -/
  | timerFire : CallEvent
  /-- A message with the given `correlationId` property and decoded body is
  delivered on the call's reply queue (part_002 lines 151-168). -/
  | reply (correlationId : String) (body : Payload) : CallEvent
  /-- The broker connection closes.  The `close` handler runs `reconnect`
  (part_002 lines 92-101): `cleanup` closes channel and connection and
  `connect` re-creates them; no statement of `reconnect`, `cleanup` or
  `connect` reads or writes `responseEmitter`, and in-process timers keep
  running, so the state of a pending call is untouched. -/
  | connectionLoss : CallEvent
  deriving DecidableEq, Repr

/-- A terminal event applied to the call's promise: `resolve(response)` or
`reject(new Error(...))`. -/
inductive Settle where
  | resolved (body : Payload) : Settle
  | rejected (message : String) : Settle
  deriving DecidableEq, Repr

/-- Observable state of one outstanding call.
`registered` is whether `responseEmitter` still holds the entry for this
call's correlation id; `timerCleared` whether `clearTimeout` has been called;
`timerFired` whether the timeout callback has run; `settles` the list of
settle events applied to the promise, in order; `deleteRequests` how many
times `channel.deleteQueue` has been requested for the reply queue. -/
structure CallState where
  registered : Bool
  timerCleared : Bool
  timerFired : Bool
  settles : List Settle
  deleteRequests : Nat
  deriving DecidableEq, Repr

/-- State right after a successful setup: the registry entry was set and the
timer started (part_002 lines 136-146), nothing has settled, no deletion
requested yet. -/
def initCallState : CallState :=
  { registered := true
    timerCleared := false
    timerFired := false
    settles := []
    deleteRequests := 0 }

/-- One event step, translated from part_002.

`timerFire` (lines 137-143): the runtime only fires a live timer (not cleared,
not already fired); the callback deletes the registry entry, requests deletion
of the reply queue, and rejects with `Request timeout`.

`reply cid body` (lines 151-168): the consume callback ignores messages whose
`correlationId` property differs from the call's own id; on a match it looks
the id up in `responseEmitter` and, only if an entry is present, clears the
timer, deletes the entry and resolves with the decoded body; it then requests
deletion of the reply queue in every matching case, outside that guard.

`connectionLoss` (lines 84-101): `reconnect` never touches `responseEmitter`
or the timers, so the call state is unchanged. -/
def stepCall (correlationId : String) (s : CallState) (e : CallEvent) : CallState :=
  match e with
  | .timerFire =>
      if s.timerCleared || s.timerFired then s
      else
        { s with
            timerFired := true
            registered := false
            deleteRequests := s.deleteRequests + 1
            settles := s.settles ++ [.rejected "Request timeout"] }
  | .reply cid body =>
      if cid = correlationId then
        let s1 :=
          if s.registered then
            { s with
                registered := false
                timerCleared := true
                settles := s.settles ++ [.resolved body] }
          else s
        { s1 with deleteRequests := s1.deleteRequests + 1 }
      else s
  | .connectionLoss => s

/-- The call state after a list of runtime events hits a freshly set up call. -/
def runCall (correlationId : String) (events : List CallEvent) : CallState :=
  events.foldl (stepCall correlationId) initCallState

/-- Number of events in `events` that are replies carrying this call's own
correlation id. -/
def matchingReplies (correlationId : String) (events : List CallEvent) : Nat :=
  events.countP fun e =>
    match e with
    | .reply cid _ => cid == correlationId
    | _ => false

/-! ### Invariant of the pending-call state machine -/

/-- A reachable call state is either still pending (registered, nothing
settled, timer live) or terminated (unregistered, exactly one settle applied,
timer cleared or already fired). -/
def CallInv (s : CallState) : Prop :=
  (s.registered = true ∧ s.settles = [] ∧ s.timerFired = false ∧ s.timerCleared = false)
  ∨ (s.registered = false ∧ s.settles.length = 1 ∧ (s.timerCleared = true ∨ s.timerFired = true))

lemma callInv_init : CallInv initCallState := by
  left
  simp [initCallState]

lemma callInv_step (cid : String) (s : CallState) (e : CallEvent)
    (h : CallInv s) : CallInv (stepCall cid s e) := by
  cases e with
  | timerFire =>
      rcases h with ⟨hr, hs, hf, hc⟩ | ⟨hr, hs, hcf⟩
      · simp only [stepCall, hf, hc, Bool.or_self, if_false]
        right
        simp [hs, hf]
      · rcases hcf with hc | hf
        · simp only [stepCall, hc, Bool.true_or, if_true]
          right
          exact ⟨hr, hs, Or.inl hc⟩
        · simp only [stepCall, hf, Bool.or_true, if_true]
          right
          exact ⟨hr, hs, Or.inr hf⟩
  | reply c b =>
      by_cases hcid : c = cid
      · rcases h with ⟨hr, hs, hf, hc⟩ | ⟨hr, hs, hcf⟩
        · simp only [stepCall, hcid, if_true, hr]
          right
          simp [hs]
        · simp only [stepCall, hcid, if_true, hr]
          right
          simpa [hr] using ⟨hs, hcf⟩
      · simpa only [stepCall, hcid, if_false] using h
  | connectionLoss => simpa only [stepCall] using h

lemma callInv_foldl (cid : String) (events : List CallEvent) (s : CallState)
    (h : CallInv s) : CallInv (events.foldl (stepCall cid) s) := by
  induction events generalizing s with
  | nil => simpa using h
  | cons e rest ih => exact ih _ (callInv_step cid s e h)

lemma callInv_runCall (cid : String) (events : List CallEvent) :
    CallInv (runCall cid events) :=
  callInv_foldl cid events initCallState callInv_init

/-- Once a call has terminated, no further event changes its settle list. -/
lemma settles_step_stable (cid : String) (s : CallState) (e : CallEvent)
    (hinv : CallInv s) (hne : s.settles ≠ []) :
    (stepCall cid s e).settles = s.settles := by
  rcases hinv with ⟨_, hs, _, _⟩ | ⟨hr, _, hcf⟩
  · exact absurd hs hne
  · cases e with
    | timerFire =>
        rcases hcf with hc | hf
        · simp [stepCall, hc]
        · simp [stepCall, hf]
    | reply c b =>
        by_cases hcid : c = cid
        · simp [stepCall, hcid, hr]
        · simp [stepCall, hcid]
    | connectionLoss => rfl

lemma settles_foldl_stable (cid : String) (events : List CallEvent) (s : CallState)
    (hinv : CallInv s) (hne : s.settles ≠ []) :
    (events.foldl (stepCall cid) s).settles = s.settles := by
  induction events generalizing s with
  | nil => rfl
  | cons e rest ih =>
      have hstep := settles_step_stable cid s e hinv hne
      have hinv2 := callInv_step cid s e hinv
      have hne2 : (stepCall cid s e).settles ≠ [] := by rw [hstep]; exact hne
      simpa [hstep] using ih (stepCall cid s e) hinv2 hne2

/-! ### Deletion-request accounting -/

lemma deleteRequests_step (cid : String) (s : CallState) (e : CallEvent) :
    (stepCall cid s e).deleteRequests + (if s.timerFired then 1 else 0)
      = s.deleteRequests + (if (stepCall cid s e).timerFired then 1 else 0)
        + matchingReplies cid [e] := by
  cases e with
  | timerFire =>
      cases hc : s.timerCleared <;> cases hf : s.timerFired <;>
        simp [stepCall, matchingReplies, hc, hf]
  | reply c b =>
      by_cases hcid : c = cid
      · cases hr : s.registered <;>
          simp [stepCall, matchingReplies, hcid, hr] <;> omega
      · simp [stepCall, matchingReplies, hcid]
  | connectionLoss => simp [stepCall, matchingReplies]

lemma deleteRequests_foldl (cid : String) (events : List CallEvent) (s : CallState) :
    (events.foldl (stepCall cid) s).deleteRequests + (if s.timerFired then 1 else 0)
      = s.deleteRequests + (if (events.foldl (stepCall cid) s).timerFired then 1 else 0)
        + matchingReplies cid events := by
  induction events generalizing s with
  | nil => simp [matchingReplies]
  | cons e rest ih =>
      have hstep := deleteRequests_step cid s e
      have hih := ih (stepCall cid s e)
      have hcount : matchingReplies cid (e :: rest)
          = matchingReplies cid [e] + matchingReplies cid rest := by
        cases e <;> simp [matchingReplies, List.countP_cons, Nat.add_comm]
      simp only [List.foldl_cons] at *
      omega

/-! ### Resolution provenance -/

lemma resolved_step_mem (cid : String) (s : CallState) (e : CallEvent) (p : Payload)
    (h : Settle.resolved p ∈ (stepCall cid s e).settles) :
    Settle.resolved p ∈ s.settles ∨ e = CallEvent.reply cid p := by
  cases e with
  | timerFire =>
      left
      by_cases hg : (s.timerCleared || s.timerFired) = true
      · simpa [stepCall, hg] using h
      · simp only [stepCall, hg, if_false] at h
        simpa using h
  | reply c b =>
      by_cases hcid : c = cid
      · by_cases hr : s.registered = true
        · simp only [stepCall, hcid, if_true, hr] at h
          simp only [List.mem_append, List.mem_singleton] at h
          rcases h with h | h
          · exact Or.inl h
          · right
            cases h
            simp [hcid]
        · left
          simp only [stepCall, hcid, if_true] at h
          simp only [Bool.not_eq_true] at hr
          simpa [hr] using h
      · left
        simpa [stepCall, hcid] using h
  | connectionLoss => exact Or.inl h

lemma resolved_foldl_mem (cid : String) (events : List CallEvent) (s : CallState)
    (p : Payload)
    (h : Settle.resolved p ∈ (events.foldl (stepCall cid) s).settles) :
    Settle.resolved p ∈ s.settles ∨ CallEvent.reply cid p ∈ events := by
  induction events generalizing s with
  | nil => exact Or.inl (by simpa using h)
  | cons e rest ih =>
      simp only [List.foldl_cons] at h
      rcases ih (stepCall cid s e) h with h1 | h1
      · rcases resolved_step_mem cid s e p h1 with h2 | h2
        · exact Or.inl h2
        · right
          simp [h2]
      · right
        simp [h1]

/-! ### Claim theorems about the pending phase -/

/-- C1: for every call made via `publishWithResponse`, at most one terminal
event (a success resolution or the timeout rejection) is ever applied to that
call's correlation id; the registry entry is removed together with the first
terminal event; and once a terminal event has occurred, no later event (in
particular no late reply) changes the settle list, so a reply arriving after
the timeout leaves the caller's outcome as the timeout failure. -/
theorem publishWithResponse_at_most_one_terminal
    (cid : String) (events extra : List CallEvent) :
    (runCall cid events).settles.length ≤ 1
    ∧ ((runCall cid events).settles ≠ [] → (runCall cid events).registered = false)
    ∧ ((runCall cid events).settles ≠ [] →
        (runCall cid (events ++ extra)).settles = (runCall cid events).settles) := by
  have hinv := callInv_runCall cid events
  refine ⟨?_, ?_, ?_⟩
  · rcases hinv with ⟨_, hs, _, _⟩ | ⟨_, hs, _⟩
    · simp [hs]
    · omega
  · intro hne
    rcases hinv with ⟨_, hs, _, _⟩ | ⟨hr, _, _⟩
    · exact absurd hs hne
    · exact hr
  · intro hne
    have : runCall cid (events ++ extra)
        = extra.foldl (stepCall cid) (runCall cid events) := by
      simp [runCall, List.foldl_append]
    rw [this]
    exact settles_foldl_stable cid extra (runCall cid events) hinv hne

theorem publishWithResponse_at_most_one_terminal_witness :
    (runCall "c" ([CallEvent.timerFire] ++ [CallEvent.reply "c" "p"])).settles
      = (runCall "c" [CallEvent.timerFire]).settles :=
  (publishWithResponse_at_most_one_terminal "c"
    [CallEvent.timerFire] [CallEvent.reply "c" "p"]).2.2 (by decide)

/-- C2 counterexample: the claim says that on connection loss a pending call
is rejected (some settle applied) and the registry is empty afterwards.  In
the code the `close` handler only runs `reconnect`, which never touches
`responseEmitter`: a pending call that sees the connection-loss event stays
registered and unsettled. -/
theorem connectionLoss_counterexample :
    ¬ ((runCall "c" [CallEvent.connectionLoss]).settles ≠ []
        ∧ (runCall "c" [CallEvent.connectionLoss]).registered = false) := by
  decide

/-- C2 amended: connection loss leaves every pending call untouched — the
call state after the connection-loss event equals the state before it — and
an outstanding caller is terminated only later, by its own deadline timer
firing with a `Request timeout` rejection (or by a reply). -/
theorem connectionLoss_leaves_calls_pending
    (cid : String) (s : CallState) (events : List CallEvent) :
    stepCall cid s CallEvent.connectionLoss = s
    ∧ runCall cid (CallEvent.connectionLoss :: events) = runCall cid events
    ∧ (runCall cid [CallEvent.connectionLoss, CallEvent.timerFire]).settles
        = [Settle.rejected "Request timeout"] := by
  refine ⟨rfl, rfl, ?_⟩
  simp [runCall, stepCall, initCallState]

/-- C3 counterexample: after the timeout has fired, a late reply carrying the
call's own correlation id triggers a second `deleteQueue` request (the consume
callback requests deletion outside the registry-entry guard, part_002 lines
164-166), so deletion is not requested exactly once for this call. -/
theorem deleteQueue_counterexample :
    ¬ ((runCall "c" [CallEvent.timerFire, CallEvent.reply "c" "p"]).deleteRequests = 1) := by
  decide

/-- C3 amended: the number of `deleteQueue` requests for a call equals one for
the timer firing (if it fired) plus one per reply carrying the call's own
correlation id; on the pure timeout path and on the pure success path this is
exactly one request, but a late or duplicate matching reply adds another. -/
theorem deleteQueue_request_count (cid : String) (events : List CallEvent) (p : Payload) :
    (runCall cid events).deleteRequests
        = (if (runCall cid events).timerFired then 1 else 0) + matchingReplies cid events
    ∧ (runCall cid [CallEvent.timerFire]).deleteRequests = 1
    ∧ (runCall cid [CallEvent.reply cid p]).deleteRequests = 1 := by
  refine ⟨?_, rfl, ?_⟩
  · have h := deleteRequests_foldl cid events initCallState
    simp only [show initCallState.timerFired = false from rfl,
               show initCallState.deleteRequests = 0 from rfl] at h
    simp only [runCall]
    simpa using h
  · simp [runCall, stepCall, initCallState]

/-- C7: a caller only ever receives a payload that arrived in a reply tagged
with its own correlation id: if the call resolved with body `p`, then the
event list contains a reply carrying this call's correlation id and body `p`.
Together with the fact that distinct calls have distinct correlation ids,
no cross-delivery between concurrent calls is possible. -/
theorem resolution_matches_own_correlationId
    (cid : String) (events : List CallEvent) (p : Payload)
    (h : Settle.resolved p ∈ (runCall cid events).settles) :
    CallEvent.reply cid p ∈ events := by
  rcases resolved_foldl_mem cid events initCallState p h with h1 | h1
  · simp [initCallState] at h1
  · exact h1

theorem resolution_matches_own_correlationId_witness :
    CallEvent.reply "a" "payload" ∈ [CallEvent.reply "b" "x", CallEvent.reply "a" "payload"] :=
  resolution_matches_own_correlationId "a"
    [CallEvent.reply "b" "x", CallEvent.reply "a" "payload"] "payload" (by decide)

/-! ### The setup phase of `publishWithResponse`

Before the pending phase, `publishWithResponse` (part_002 lines 116-190)
checks the channel, asserts the reply queue, starts the timer, stores the
registry entry, registers the consumer, and publishes the request; a thrown
channel operation lands in the `catch` block (lines 185-189), which removes
the registry entry, requests deletion of the reply queue, and rethrows.  We
record the channel operations issued, in program order.  `channel.consume` is
invoked synchronously inside the promise executor, before the publish, so the
consume registration is issued on the single multiplexed channel ahead of the
publish frame. -/

/-- An operation issued on the shared channel, in program order. -/
inductive ChannelOp where
  | assertQueue (queue : String) : ChannelOp
  | consume (queue : String) : ChannelOp
  | publish (exchange routingKey : String)
      (correlationId replyTo : Option String) (body : Payload) : ChannelOp
  | deleteQueue (queue : String) : ChannelOp
  deriving DecidableEq, Repr

/-- Outcome of the setup phase of one `publishWithResponse` call.
`ops` are the channel operations issued in program order; `everRegistered`
whether a registry entry was ever stored for the call's correlation id;
`registeredAfter` whether the entry is still present when setup finishes;
`timerStarted` whether the deadline timer was started; `thrown` the error
message rethrown to the caller, if setup threw instead of returning the
promise. -/
structure SetupOutcome where
  ops : List ChannelOp
  everRegistered : Bool
  registeredAfter : Bool
  timerStarted : Bool
  thrown : Option String
  deriving DecidableEq, Repr

/-- Setup phase of `publishWithResponse` (part_002 lines 116-190).
Environment faults are inputs: `channelInitialized` is whether `this.channel`
is set (a first `connect()` succeeded); `assertQueueError` and `publishError`
are the errors, if any, thrown by `channel.assertQueue` and `channel.publish`.

Lines 122-124: a missing channel throws `Channel not initialized` before any
other step.  Lines 131-134: the reply queue is asserted; on a throw the
`catch` block deletes the (never created) registry entry, requests deletion of
the reply queue, and rethrows.  Lines 136-170: the promise executor runs
synchronously — it starts the timer, stores the registry entry, and invokes
`channel.consume` on the reply queue.  Lines 174-182: the request is published
with the `correlationId` and `replyTo` properties; on a throw the `catch`
block removes the registry entry, requests deletion of the reply queue, and
rethrows (the already started timer is not cleared there). -/
def publishWithResponseSetup
    (channelInitialized : Bool)
    (assertQueueError publishError : Option String)
    (exchange routingKey correlationId : String) (body : Payload) : SetupOutcome :=
  if ¬channelInitialized then
    { ops := []
      everRegistered := false
      registeredAfter := false
      timerStarted := false
      thrown := some "Channel not initialized" }
  else
    let q := replyQueueName correlationId
    match assertQueueError with
    | some e =>
        { ops := [.assertQueue q, .deleteQueue q]
          everRegistered := false
          registeredAfter := false
          timerStarted := false
          thrown := some e }
    | none =>
        match publishError with
        | some e =>
            { ops := [.assertQueue q, .consume q,
                      .publish exchange routingKey (some correlationId) (some q) body,
                      .deleteQueue q]
              everRegistered := true
              registeredAfter := false
              timerStarted := true
              thrown := some e }
        | none =>
            { ops := [.assertQueue q, .consume q,
                      .publish exchange routingKey (some correlationId) (some q) body]
              everRegistered := true
              registeredAfter := true
              timerStarted := true
              thrown := none }

/-- The publish of the request appears in an operation list only after a
consume registration on the given queue. -/
def consumePrecedesPublish (q : String) (ops : List ChannelOp) : Prop :=
  ∀ (j : Nat) (e rk : String) (c r : Option String) (b : Payload),
    ops.get? j = some (.publish e rk c r b) →
    ∃ i : Nat, i < j ∧ ops.get? i = some (.consume q)

/-! ### Timeout defaults (part_002 lines 116-121, 137-143) -/

/-- Default timeout of `publishWithResponse`: the parameter declaration
`timeout: number = 30000` (part_002 line 120). -/
def defaultTimeoutMs : Nat := 30000

/-- The timeout actually used for a call: the caller-supplied value when one
is passed, the declared default otherwise. -/
def effectiveTimeout (timeoutArg : Option Nat) : Nat :=
  timeoutArg.getD defaultTimeoutMs

/-- The absolute deadline of a call: `setTimeout(cb, timeout)` arms the timer
for `timeout` milliseconds after call start (part_002 lines 137-143). -/
def callDeadline (start : Nat) (timeoutArg : Option Nat) : Nat :=
  start + effectiveTimeout timeoutArg

/-! ### Claim theorems about the setup phase -/

/-- C4: in every run of `publishWithResponse`, whenever a publish of the
request appears in the issued channel-operation sequence, a consume
registration on the call's ephemeral reply queue was issued strictly before
it, so a reply arriving immediately after the publish finds the bridge
already listening. -/
theorem publish_after_consume
    (channelInitialized : Bool) (assertQueueError publishError : Option String)
    (exchange routingKey correlationId : String) (body : Payload) :
    consumePrecedesPublish (replyQueueName correlationId)
      (publishWithResponseSetup channelInitialized assertQueueError publishError
        exchange routingKey correlationId body).ops := by
  intro j e rk c r b hj
  cases channelInitialized with
  | false => simp [publishWithResponseSetup] at hj
  | true =>
      cases assertQueueError with
      | some ae =>
          simp only [publishWithResponseSetup, Bool.not_true, if_neg] at hj
          match j, hj with
          | 0, h => simp at h
          | 1, h => simp at h
          | n + 2, h => simp at h
      | none =>
          cases publishError with
          | some pe =>
              simp only [publishWithResponseSetup, Bool.not_true, if_neg] at hj
              match j, hj with
              | 0, h => simp at h
              | 1, h => simp at h
              | 2, _ => exact ⟨1, by omega, rfl⟩
              | 3, h => simp at h
              | n + 4, h => simp at h
          | none =>
              simp only [publishWithResponseSetup, Bool.not_true, if_neg] at hj
              match j, hj with
              | 0, h => simp at h
              | 1, h => simp at h
              | 2, _ => exact ⟨1, by omega, rfl⟩
              | n + 3, h => simp at h

theorem publish_after_consume_witness :
    ∃ i : Nat, i < 2 ∧
      (publishWithResponseSetup true none none "inventory.exchange"
          "inventory.stock.check" "cid" "body").ops.get? i
        = some (ChannelOp.consume (replyQueueName "cid")) :=
  publish_after_consume true none none "inventory.exchange"
    "inventory.stock.check" "cid" "body" 2 "inventory.exchange"
    "inventory.stock.check" (some "cid") (some (replyQueueName "cid")) "body" rfl

/-- C5: when the publish step throws, the call is rejected immediately with
that error and the registry entry is removed by the `catch` block itself,
before any timer event; the same holds when the queue assertion before it
throws.  In both cases the outcome is fixed by the setup phase alone, so the
caller never waits for the deadline. -/
theorem publish_failure_fails_fast
    (exchange routingKey correlationId : String) (body : Payload) (e : String) :
    ((publishWithResponseSetup true none (some e)
        exchange routingKey correlationId body).thrown = some e
      ∧ (publishWithResponseSetup true none (some e)
          exchange routingKey correlationId body).registeredAfter = false
      ∧ (publishWithResponseSetup true none (some e)
          exchange routingKey correlationId body).everRegistered = true)
    ∧ ∀ publishError,
        (publishWithResponseSetup true (some e) publishError
            exchange routingKey correlationId body).thrown = some e
        ∧ (publishWithResponseSetup true (some e) publishError
            exchange routingKey correlationId body).registeredAfter = false := by
  exact ⟨⟨rfl, rfl, rfl⟩, fun publishError => ⟨rfl, rfl⟩⟩

/-- C6: invoked before the channel has ever been established,
`publishWithResponse` throws `Channel not initialized` immediately: no
channel operation is issued (in particular no reply queue is declared) and no
registry entry is ever created. -/
theorem channel_not_initialized_fails_immediately
    (assertQueueError publishError : Option String)
    (exchange routingKey correlationId : String) (body : Payload) :
    (publishWithResponseSetup false assertQueueError publishError
        exchange routingKey correlationId body).thrown
        = some "Channel not initialized"
    ∧ (publishWithResponseSetup false assertQueueError publishError
        exchange routingKey correlationId body).ops = []
    ∧ (publishWithResponseSetup false assertQueueError publishError
        exchange routingKey correlationId body).everRegistered = false := by
  exact ⟨rfl, rfl, rfl⟩

/-- C9: when the caller passes no timeout the declared default of 30000 ms
is used, so the deadline is call start plus 30 seconds; a caller-supplied
timeout replaces the default. -/
theorem timeout_default_30s (start t : Nat) :
    callDeadline start none = start + 30000
    ∧ callDeadline start (some t) = start + t
    ∧ effectiveTimeout none = defaultTimeoutMs := by
  exact ⟨rfl, rfl, rfl⟩

/-! ### The subscriber (part_002 lines 209-231)

`subscribe(queue, callback)` registers a consume callback that, for each
delivered message, runs `JSON.parse` on the body and then the handler inside
one `try`; on success it acknowledges the message, and any error — a decode
failure or a handler failure — is caught, logged, and answered with
`channel.nack(msg, false, false)`, i.e. reject without requeueing.  Because
every delivery is wrapped in its own try/catch, a failure is contained to
that one message and the consumption loop keeps processing later messages. -/

/-- Reply sent to the broker for one delivered message: `ack`, or
`nack allUpTo requeue`. -/
inductive ConsumeOutcome where
  | ack : ConsumeOutcome
  | nack (allUpTo requeue : Bool) : ConsumeOutcome
  deriving DecidableEq, Repr

/-- Processing of one delivered message body (part_002 lines 214-226).
`decode` is the `JSON.parse` of the raw body and `handler` the subscriber
callback; either may fail with an error. -/
def handleDelivery (decode : Payload → Except String Payload)
    (handler : Payload → Except String Unit) (content : Payload) : ConsumeOutcome :=
  match decode content with
  | .error _ => .nack false false
  | .ok decoded =>
      match handler decoded with
      | .error _ => .nack false false
      | .ok _ => .ack

/-- The consumption loop over the messages delivered to the queue: each one
is processed by `handleDelivery`, independently of the others. -/
def subscribeLoop (decode : Payload → Except String Payload)
    (handler : Payload → Except String Unit) (msgs : List Payload) : List ConsumeOutcome :=
  msgs.map (handleDelivery decode handler)

/-- C8: a delivered message is acknowledged exactly when decoding succeeds
and the handler completes without error; otherwise it is rejected without
requeueing (`nack` with `requeue = false`); and a failure never terminates
the consumption loop — every delivered message gets its own outcome,
determined by that message alone. -/
theorem subscribe_ack_iff_handler_ok
    (decode : Payload → Except String Payload)
    (handler : Payload → Except String Unit)
    (content : Payload) (msgs : List Payload) :
    (handleDelivery decode handler content = ConsumeOutcome.ack
      ↔ ∃ d, decode content = Except.ok d ∧ handler d = Except.ok ())
    ∧ (handleDelivery decode handler content = ConsumeOutcome.ack
        ∨ handleDelivery decode handler content = ConsumeOutcome.nack false false)
    ∧ (subscribeLoop decode handler msgs).length = msgs.length
    ∧ ∀ i : Nat, (subscribeLoop decode handler msgs)[i]?
        = msgs[i]?.map (handleDelivery decode handler) := by
  refine ⟨?_, ?_, ?_, ?_⟩
  · constructor
    · intro h
      unfold handleDelivery at h
      cases hd : decode content with
      | error e => simp [hd] at h
      | ok d =>
          rw [hd] at h
          cases hh : handler d with
          | error e => simp [hh] at h
          | ok u => cases u; exact ⟨d, rfl, hh⟩
    · rintro ⟨d, hd, hh⟩
      simp [handleDelivery, hd, hh]
  · unfold handleDelivery
    cases hd : decode content with
    | error e => simp
    | ok d =>
        cases hh : handler d with
        | error e => simp [hh]
        | ok u => simp [hh]
  · simp [subscribeLoop]
  · intro i
    simp [subscribeLoop, List.getElem?_map]

theorem subscribe_ack_iff_handler_ok_witness :
    (subscribeLoop Except.ok
        (fun s => if s = "bad" then Except.error "boom" else Except.ok ())
        ["good", "bad", "good"]).length
      = (["good", "bad", "good"] : List Payload).length :=
  (subscribe_ack_iff_handler_ok Except.ok
    (fun s => if s = "bad" then Except.error "boom" else Except.ok ())
    "good" ["good", "bad", "good"]).2.2.1

/-! ### The order workflow (src/orders/orders.service.ts)

`createOrder` (lines 24-128) checks stock over the bridge, creates the order
with status `PENDING`, requests stock deduction, and either confirms the
order or — on a deduction error or a `success: false` deduction response —
marks it `FAILED` and throws an HTTP 500 `Failed to process order`.  The
repository and logging operations are modelled as succeeding; the stock-check
and deduction round trips are environment inputs that either yield a response
or throw. -/

/-- Order status enum used by the service (`OrderStatus.PENDING`,
`CONFIRMED`, `FAILED`). -/
inductive OrderStatus where
  | pending : OrderStatus
  | confirmed : OrderStatus
  | failed : OrderStatus
  deriving DecidableEq, Repr

/-- Payload of a create-order request (src/orders/dtos/create-order.dto). -/
structure CreateOrderDto where
  productCode : String
  quantity : Nat
  deriving DecidableEq, Repr

/-- Shape of the stock-check and stock-deduction responses
(src/rabbitmq/rabbitmq.types.ts): `availableStock` is an optional map from
product code to a number, modelled as an association list. -/
structure StockCheckResponse where
  orderId : String
  success : Bool
  message : Option String
  availableStock : Option (List (String × Nat))
  deriving DecidableEq, Repr

/-- Result surfaced to the caller of `createOrder`.  `confirmedOrder` is the
happy path (carrying the computed total price, `none` standing for the NaN
produced when the product code is missing from `availableStock`);
`httpError` an `HttpException` with message and status code; `rethrown` any
other error rethrown by the outer catch block. -/
inductive CreateOrderResult where
  | confirmedOrder (totalPrice : Option Nat) : CreateOrderResult
  | httpError (message : String) (statusCode : Nat) : CreateOrderResult
  | rethrown (message : String) : CreateOrderResult
  deriving DecidableEq, Repr

/-- `createOrder` (orders.service.ts lines 24-128).  The first component is
the final persisted status of the order created by this call (`none` when no
order was created).

Lines 30-42: the stock check; a throw propagates through the outer catch
(lines 121-127), which logs and rethrows.  Lines 45-54: a `success: false`
check throws an HTTP 400 with the response message, defaulted to
`Insufficient stock available`; no order has been created yet.  Lines 56-58:
the total price reads `availableStock[productCode]`; a missing
`availableStock` object makes that property access throw (modelled as
`rethrown TypeError`) before the order is created.  Lines 61-67: the order is
created with status `PENDING`.  Lines 69-103: the deduction call; a
`success: false` response raises inside the inner try; on success the order
is updated to `CONFIRMED` and returned.  Lines 104-120: the inner catch
updates the order to `FAILED` and then throws an HTTP 500
`Failed to process order`, which the outer catch rethrows unchanged. -/
def createOrder (dto : CreateOrderDto)
    (stockCheck : Except String StockCheckResponse)
    (deduction : Except String StockCheckResponse) :
    Option OrderStatus × CreateOrderResult :=
  match stockCheck with
  | .error e => (none, .rethrown e)
  | .ok r =>
      if r.success = false then
        (none, .httpError (r.message.getD "Insufficient stock available") 400)
      else
        match r.availableStock with
        | none => (none, .rethrown "TypeError")
        | some stock =>
            let totalPrice := (stock.lookup dto.productCode).map
              fun unitPrice => dto.quantity * unitPrice
            match deduction with
            | .error _ => (some .failed, .httpError "Failed to process order" 500)
            | .ok d =>
                if d.success then (some .confirmed, .confirmedOrder totalPrice)
                else (some .failed, .httpError "Failed to process order" 500)

/-- The stock-deduction step failed: the bridge call threw, or it returned a
response with `success: false`. -/
def deductionFailed (deduction : Except String StockCheckResponse) : Prop :=
  match deduction with
  | .error _ => True
  | .ok d => d.success = false

/-- C10: if the stock check succeeds (and its stock map is present, so the
order is created with status `PENDING`) and the deduction step then throws or
returns `success: false`, `createOrder` leaves the order with status `FAILED`
and raises an HTTP 500 `Failed to process order`; the order is neither left
`PENDING` nor marked `CONFIRMED` on this path. -/
theorem createOrder_deduction_failure_marks_failed
    (dto : CreateOrderDto) (r : StockCheckResponse) (stock : List (String × Nat))
    (deduction : Except String StockCheckResponse)
    (hs : r.success = true) (ha : r.availableStock = some stock)
    (hd : deductionFailed deduction) :
    createOrder dto (.ok r) deduction
      = (some OrderStatus.failed,
         CreateOrderResult.httpError "Failed to process order" 500) := by
  cases deduction with
  | error e => simp [createOrder, hs, ha]
  | ok d =>
      have hd2 : d.success = false := hd
      simp [createOrder, hs, ha, hd2]

theorem createOrder_deduction_failure_marks_failed_witness :
    createOrder ⟨"PROD-1", 2⟩
      (Except.ok ⟨"ORDER-123", true, none, some [("PROD-1", 100)]⟩)
      (Except.ok ⟨"ORDER-123", false, some "Deduction failed", none⟩)
      = (some OrderStatus.failed,
         CreateOrderResult.httpError "Failed to process order" 500) :=
  createOrder_deduction_failure_marks_failed ⟨"PROD-1", 2⟩
    ⟨"ORDER-123", true, none, some [("PROD-1", 100)]⟩ [("PROD-1", 100)]
    (Except.ok ⟨"ORDER-123", false, some "Deduction failed", none⟩)
    rfl rfl rfl

end OrderService
